import Mathlib

/-!
Verification of the download/update orchestration core of SpotifyDL
(src/SpotifyDL.py).

The development shallowly embeds the pieces of the program that the
claims are about:

* the version-string parser and comparison of `UpdateWorker.run.version_tuple`
  (src/SpotifyDL.py lines 797-805);
* the release-asset selection of `UpdateWorker.run` (lines 808-832);
* the whole `UpdateWorker.run` state machine (lines 772-868), as a pure
  function of an environment describing the outside world (binary on disk,
  subprocess output, network responses, filesystem primitive outcomes);
* the line-parsing loop of `DownloadWorker.run` (lines 100-123) and the
  progress slot `SpotifyDownloaderApp.update_progress` (lines 593-596);
* the control flow of `DownloadWorker.run` itself (lines 32-139);
* the history cap of `SpotifyDownloaderApp.add_to_history` (lines 657-663).

Python string primitives are re-implemented on `List Char` so that every
definition is executable and kernel-reducible.

Two facts about the source drive several results below and are recorded
here once:

* the module imports (src/SpotifyDL.py lines 1-16) never import `shutil`,
  yet `DownloadWorker.run` evaluates `shutil.which` at lines 51 and 59;
  in CPython this raises `NameError` at line 51, outside the
  `try` block that only begins at line 97, so for every non-empty URL the
  exception escapes `run` before any executable is resolved or any
  process is spawned, and the working directory changed at line 39 is
  never restored (the `finally` at line 137 belongs to the later `try`);
* the function `app_base_dir` is called at lines 46 and 775 but is not
  defined anywhere under src/; it is modelled from the spec below.
-/

namespace SpotifyDL

/-! ### Python-style string primitives, on `List Char` -/

/-- Character-list test used for Python substring search: does the second
list begin with the first one. -/
def leadsWith : List Char → List Char → Bool
  | [], _ => true
  | _ :: _, [] => false
  | p :: ps, c :: cs => p == c && leadsWith ps cs

/-- Scan helper for `containsSub`: does `sub` occur in the scanned list. -/
def containsFrom (sub : List Char) : List Char → Bool
  | [] => leadsWith sub []
  | c :: cs => leadsWith sub (c :: cs) || containsFrom sub cs

/-- Python `sub in s` (substring containment). -/
def containsSub (s sub : String) : Bool :=
  containsFrom sub.toList s.toList

/-- Python `s.endswith(sfx)`. -/
def endsW (s sfx : String) : Bool :=
  leadsWith sfx.toList.reverse s.toList.reverse

/-- Python `s.lower()` (ASCII case fold, which is all the program feeds it). -/
def pyLower (s : String) : String :=
  (s.toList.map Char.toLower).asString

/-- Python `s.strip()`: drop leading and trailing whitespace. -/
def pyStrip (s : String) : String :=
  (((s.toList.dropWhile Char.isWhitespace).reverse.dropWhile
      Char.isWhitespace).reverse).asString

/-- Python `s.lstrip("v")`: drop every leading `v`. -/
def lstripV (s : String) : String :=
  (s.toList.dropWhile (· == 'v')).asString

/-- Splitting on a separator character, accumulator form.
`splitOnCharAux sep l acc` matches Python `("".join overall semantics of)
str.split(sep)`: an empty input yields one empty field. -/
def splitOnCharAux (sep : Char) : List Char → List Char → List (List Char)
  | [], acc => [acc.reverse]
  | c :: cs, acc =>
    if c == sep then acc.reverse :: splitOnCharAux sep cs []
    else splitOnCharAux sep cs (c :: acc)

/-- Python `s.split(".")`. -/
def pySplitDot (s : String) : List String :=
  (splitOnCharAux '.' s.toList []).map List.asString

/-- Whitespace splitting, accumulator form: Python `s.split()` with no
argument (runs of whitespace are separators, no empty fields). -/
def splitWsAux : List Char → List Char → List String
  | [], acc => if acc.isEmpty then [] else [acc.reverse.asString]
  | c :: cs, acc =>
    if c.isWhitespace then
      if acc.isEmpty then splitWsAux cs []
      else acc.reverse.asString :: splitWsAux cs []
    else splitWsAux cs (c :: acc)

/-- Python `s.split()` with no argument. -/
def pySplitWs (s : String) : List String :=
  splitWsAux s.toList []

/-- Python `int(num)` on a non-empty string of decimal digits. -/
def digitsToNat (l : List Char) : Nat :=
  l.foldl (fun n c => n * 10 + (c.toNat - 48)) 0

/-! ### Version comparison (`UpdateWorker.run.version_tuple`, lines 797-805)

```python
def version_tuple(v: str):
    parts = []
    for p in v.split('.'):
        num = ''.join(ch for ch in p if ch.isdigit())
        parts.append(int(num) if num else 0)
    return tuple(parts)
```
-/

/-- `version_tuple` of src/SpotifyDL.py lines 797-803: split on dots, keep
the digits of each component, a component with no digits becomes 0. -/
def version_tuple (v : String) : List Nat :=
  (pySplitDot v).map fun p =>
    let num := p.toList.filter Char.isDigit
    if num.isEmpty then 0 else digitsToNat num

/-- Python tuple `<` on integer tuples: lexicographic, a strict prefix is
smaller. This is the comparison the source applies at line 805
(`version_tuple(latest_tag) > version_tuple(current_version)`). -/
def tupleLt : List Nat → List Nat → Bool
  | [], [] => false
  | [], _ :: _ => true
  | _ :: _, [] => false
  | a :: ta, b :: tb => decide (a < b) || (decide (a = b) && tupleLt ta tb)

/-- The guard of src/SpotifyDL.py line 805:
`if latest_tag and version_tuple(latest_tag) > version_tuple(current_version)`.
The remote tag wins only if it is non-empty and strictly greater. -/
def shouldUpdate (latest_tag current_version : String) : Bool :=
  (!(latest_tag == "")) && tupleLt (version_tuple current_version) (version_tuple latest_tag)

/-! ### The line-parsing loop of `DownloadWorker.run` (lines 100-123)

```python
total_tracks = 1
current_track = 0
downloaded_tracks = []
for line in stdout_iter:
    if "Downloading" in line or "Found" in line or "Downloaded" in line or "Error" in line:
        self.update_console.emit(line.strip())
    if "Downloading" in line:
        current_track += 1
        self.update_progress.emit(current_track, total_tracks)
        track_match = re.search(r"Downloading (.+)", line)
        if track_match:
            downloaded_tracks.append(track_match.group(1).strip())
    elif "Found" in line:
        match = re.search(r"Found (\d+) tracks", line)
        if match:
            total_tracks = int(match.group(1))
```

Lines are modelled without their trailing newline (regex `.` never matches
a newline, so the capture groups never see it either).
-/

/-- First occurrence search: the characters after the first occurrence of
`pat`, if `pat` occurs. -/
def afterFirst (pat : List Char) : List Char → Option (List Char)
  | [] => if leadsWith pat [] then some [] else none
  | c :: cs =>
    if leadsWith pat (c :: cs) then some ((c :: cs).drop pat.length)
    else afterFirst pat cs

/-- `re.search(r"Downloading (.+)", line)` followed by `.group(1).strip()`
(src lines 115-117): the text after the leftmost `"Downloading "`, which
must be non-empty, stripped. The leftmost occurrence with a non-empty
remainder is the leftmost occurrence itself, since an occurrence with an
empty remainder sits at the very end of the line. -/
def downloadingTitle (line : String) : Option String :=
  match afterFirst "Downloading ".toList line.toList with
  | some rest => if rest.isEmpty then none else some (pyStrip rest.asString)
  | none => none

/-- Strip a literal pattern from the front, or fail. -/
def dropPat (pat l : List Char) : Option (List Char) :=
  match pat, l with
  | [], rest => some rest
  | _ :: _, [] => none
  | p :: ps, c :: cs => if p == c then dropPat ps cs else none

/-- One attempted match of `r"Found (\d+) tracks"` at the start of `l`:
literal `"Found "`, then a maximal non-empty digit run, then literal
`" tracks"`. (The regex engine cannot accept a shorter digit run here: the
character after a shortened run would be a digit, never the space that
`" tracks"` starts with.) -/
def foundTracksAt (l : List Char) : Option Nat :=
  match dropPat "Found ".toList l with
  | none => none
  | some rest =>
    let ds := rest.takeWhile Char.isDigit
    if ds.isEmpty then none
    else
      match dropPat " tracks".toList (rest.drop ds.length) with
      | some _ => some (digitsToNat ds)
      | none => none

/-- Leftmost-match scan for `r"Found (\d+) tracks"`. -/
def foundScan : List Char → Option Nat
  | [] => none
  | c :: cs =>
    match foundTracksAt (c :: cs) with
    | some n => some n
    | none => foundScan cs

/-- `re.search(r"Found (\d+) tracks", line)` with `int(match.group(1))`
(src lines 120-122). -/
def foundTracks (line : String) : Option Nat :=
  foundScan line.toList

/-- The loop state of src lines 100-102. -/
structure LoopState where
  total_tracks : Nat
  current_track : Nat
  downloaded_tracks : List String
deriving DecidableEq

/-- Signals emitted while parsing: `update_console` strings and
`update_progress` pairs `(current_track, total_tracks)`. -/
structure ParseEmits where
  console : List String
  progress : List (Nat × Nat)
deriving DecidableEq

/-- The console filter of src line 107. -/
def isRelevant (line : String) : Bool :=
  containsSub line "Downloading" || containsSub line "Found" ||
    containsSub line "Downloaded" || containsSub line "Error"

/-- One iteration of the parsing loop, src lines 105-123. -/
def processLine (st : LoopState) (line : String) : LoopState × ParseEmits :=
  let console := if isRelevant line then [pyStrip line] else []
  if containsSub line "Downloading" then
    let cur := st.current_track + 1
    let tracks :=
      match downloadingTitle line with
      | some t => st.downloaded_tracks ++ [t]
      | none => st.downloaded_tracks
    ({ total_tracks := st.total_tracks, current_track := cur,
       downloaded_tracks := tracks },
     { console := console, progress := [(cur, st.total_tracks)] })
  else if containsSub line "Found" then
    match foundTracks line with
    | some n => ({ st with total_tracks := n }, { console := console, progress := [] })
    | none => (st, { console := console, progress := [] })
  else (st, { console := console, progress := [] })

/-- The whole loop over the output lines, accumulating emitted signals in
order. -/
def processLines (st : LoopState) : List String → LoopState × ParseEmits
  | [] => (st, ⟨[], []⟩)
  | l :: ls =>
    let r1 := processLine st l
    let r2 := processLines r1.1 ls
    (r2.1, ⟨r1.2.console ++ r2.2.console, r1.2.progress ++ r2.2.progress⟩)

/-- The initial loop state of src lines 100-102: `total_tracks = 1`,
`current_track = 0`, `downloaded_tracks = []`. -/
def initLoopState : LoopState := ⟨1, 0, []⟩

/-! ### The progress slot `SpotifyDownloaderApp.update_progress` (lines 593-596)

```python
def update_progress(self, current, total):
    progress = int((current / total) * 100)
    self.progress_bar.setValue(progress)
```

The Python expression divides first (true division) and truncates with
`int`; for the non-negative integers that reach this slot that is the
floor of `current * 100 / total`, which is how it is modelled here (the
float rounding of CPython is idealised as exact rational arithmetic).
There is no guard: `total = 0` raises `ZeroDivisionError`, modelled as
`none`. -/
def update_progress (current total : Nat) : Option Nat :=
  if total = 0 then none else some (current * 100 / total)

/-! ### `DownloadWorker.run` control flow (lines 32-139) -/

/-- The constructor arguments of `DownloadWorker` (src lines 24-30). -/
structure DownloadRequest where
  url : String
  download_path : String
  quality : String
  format_type : String
  use_auth : Bool

/-- One `download_complete` emission (src line 22): success flag, message,
content summary, timestamp. -/
structure Outcome where
  success : Bool
  message : String
  content : String
  timestamp : String
deriving DecidableEq

/-- Ambient state seen by the worker. `baseDir` stands for
`app_base_dir()`. Modelled from the spec: `app_base_dir` is called at src
lines 46 and 775 but its definition is not under src/; per the spec it
resolves "a fixed location relative to the application's own install
directory". Its value is irrelevant to every claim below. -/
structure WorkerEnv where
  cwd : String
  baseDir : String

/-- Observable result of one `DownloadWorker.run`: the `download_complete`
emissions, the working directory when the method is left, whether the
executable lookup completed, whether a process was spawned, and the
exception escaping the method, if any. -/
structure RunResult where
  outcomes : List Outcome
  finalCwd : String
  resolvedExecutables : Bool
  spawned : Bool
  escaped : Option String
deriving DecidableEq

/-- Shallow embedding of `DownloadWorker.run`, src lines 32-139.

* Line 33: `if not self.url` — an empty URL emits
  `(False, "No URL provided", "", "")` once and returns before the
  `chdir` of line 39, before the executable lookup, and before any spawn.
* Lines 38-39: the current directory is saved and changed to the
  requested download path.
* Line 46 calls `app_base_dir` (modelled, see `WorkerEnv.baseDir`).
* Line 51 evaluates `shutil.which("ffmpeg")`, but the imports of
  src lines 1-16 never import `shutil`, so CPython raises
  `NameError: name "shutil" is not defined` here. The `try` only begins
  at line 97 and the `finally` of line 137 belongs to it, so the
  exception escapes `run`: no outcome is emitted, nothing is spawned,
  and the working directory stays at `download_path`. Lines 52-139 are
  unreachable; the parsing loop they contain (lines 105-123) is embedded
  separately above as `processLine`. -/
def DownloadWorker.run (req : DownloadRequest) (env : WorkerEnv) : RunResult :=
  if req.url = "" then
    { outcomes := [⟨false, "No URL provided", "", ""⟩],
      finalCwd := env.cwd,
      resolvedExecutables := false, spawned := false, escaped := none }
  else
    { outcomes := [],
      finalCwd := req.download_path,
      resolvedExecutables := false, spawned := false,
      escaped := some "NameError: name shutil is not defined" }

/-! ### History (`SpotifyDownloaderApp.add_to_history`, lines 657-663)

```python
def add_to_history(self, entry):
    self.download_history.insert(0, entry)
    if len(self.download_history) > 100:
        self.download_history = self.download_history[:100]
    self.save_history()
    self.update_history_display()
```
-/

/-- A persisted history record, with the keys written by
`download_finished` (src lines 608-630): failed entries carry `error` and
no `path`, successful ones carry `path` and no `error`. -/
structure HistoryEntry where
  timestamp : String
  content : String
  status : String
  format : String
  quality : String
  path : Option String
  error : Option String
deriving DecidableEq

/-- The list update of `add_to_history` (src lines 657-661): insert at the
front, then truncate to the first 100 entries when the length exceeds
100. -/
def add_to_history (entry : HistoryEntry) (download_history : List HistoryEntry) :
    List HistoryEntry :=
  let h := entry :: download_history
  if 100 < h.length then h.take 100 else h

/-! ### `UpdateWorker.run` (lines 772-868)

The whole method body is wrapped in `try ... except Exception: pass`
followed by `finished.emit()`; the missing-binary early return emits
`finished` itself. The embedding is a pure function of an environment
describing every outside interaction, returning the observable result:
how often `finished` fired, whether anything escaped, the final state of
the binary and of the temporary `.new` file, and which effects were
attempted. The chunked download loop (lines 839-851) is abstracted to its
outcome: the content that ends up in the temporary file, plus a success
flag (no claim is about the per-chunk progress events). -/

/-- One element of the release `assets` array (src lines 818-831): the
fields read are `name` and `browser_download_url`. A missing
`browser_download_url` (Python `None`, falsy) is modelled as `""`, which
the source treats identically at the `if download_url:` check of
line 834. -/
structure Asset where
  name : String
  browser_download_url : String
deriving DecidableEq

/-- The parsed release feed (src lines 793-795, 818): `tag_name` and
`assets`, with Python `.get` defaults `""` and `[]`. -/
structure ReleaseData where
  tag_name : String
  assets : List Asset

/-- Architecture to preferred-token set, src lines 809-816 (the argument
is `platform.machine().lower()`). -/
def preferredTokens (arch : String) : List String :=
  if containsSub arch "arm" then ["arm64", "aarch64"]
  else if containsSub arch "64" || arch = "amd64" || arch = "x86_64" then
    ["x64", "amd64", "win64"]
  else ["win32", "x86"]

/-- The first-pass asset predicate of src line 823: lowercased name ends
with `.exe`, contains `spotdl`, contains `win`, and contains one of the
preferred architecture tokens. -/
def firstPassPred (pref : List String) (a : Asset) : Bool :=
  let name := pyLower a.name
  endsW name ".exe" && containsSub name "spotdl" && containsSub name "win" &&
    pref.any (fun t => containsSub name t)

/-- The first-pass loop of src lines 821-825: take the download URL of the
first matching asset (and stop), `""` when no asset matches. -/
def firstPassLoop (pref : List String) : List Asset → String
  | [] => ""
  | a :: rest =>
    if firstPassPred pref a then a.browser_download_url
    else firstPassLoop pref rest

/-- The legacy asset name of src line 828: `f"spotdl-{latest_tag}-win32.exe"`. -/
def legacyName (latest_tag : String) : String :=
  "spotdl-" ++ latest_tag ++ "-win32.exe"

/-- The fallback loop of src lines 829-832: the download URL of the first
asset whose (raw) name equals the legacy name, `""` when none does. -/
def legacyLoop (legacy : String) : List Asset → String
  | [] => ""
  | a :: rest =>
    if a.name == legacy then a.browser_download_url
    else legacyLoop legacy rest

/-- Asset selection, src lines 808-832: first pass on architecture tokens,
then the legacy-name fallback whenever the first pass produced no (truthy)
URL. The result `""` means no URL was selected and the update aborts at
the `if download_url:` check of line 834. -/
def chooseAsset (arch latest_tag : String) (assets : List Asset) : String :=
  let pref := preferredTokens (pyLower arch)
  let u := firstPassLoop pref assets
  if u = "" then legacyLoop (legacyName latest_tag) assets else u

/-- The outside world as seen by one `UpdateWorker.run`:

* `initialBinary` — content of `<base>/spotdl.exe`, `none` when the file
  does not exist (the check of src line 778);
* `versionQuery` — result of `subprocess.check_output([spotdl, "--version"])`
  after `.decode()` (src line 783), or the exception it raised;
* `release` — the parsed JSON of the releases-latest request
  (src lines 787-793), or the exception (network error, timeout,
  bad JSON);
* `arch` — `platform.machine()` (src line 809);
* `connectOk` — the `urlopen` of the asset URL (src line 837) succeeds;
* `downloadOk` — the chunked read/write loop (src lines 839-851) runs to
  the end; on failure the temporary file holds `partialContent`
  (the `open(temp_path, "wb")` of line 842 creates the file before any
  read);
* `newContent` — the full asset content written on success;
* `replaceOk` — `os.replace(temp_path, spotdl_path)` (src line 854)
  succeeds;
* `removeOk` — the fallback `os.remove(spotdl_path)` (src line 859)
  succeeds (its failure is swallowed by the inner `except: pass`);
* `renameOk` — the fallback `os.rename(temp_path, spotdl_path)`
  (src line 863) succeeds; its failure propagates to the outer handler. -/
structure UpdEnv where
  initialBinary : Option String
  versionQuery : Except String String
  release : Except String ReleaseData
  arch : String
  connectOk : Bool
  downloadOk : Bool
  newContent : String
  partialContent : String
  replaceOk : Bool
  removeOk : Bool
  renameOk : Bool

/-- Observable result of one `UpdateWorker.run`. -/
structure UpdResult where
  finishedCount : Nat
  escaped : Bool
  binary : Option String
  temp : Option String
  versionQueried : Bool
  networkRequests : Nat
  wroteTemp : Bool
  statusEvents : List String
  progressStarted : Bool
deriving DecidableEq

/-- Shallow embedding of `UpdateWorker.run`, src lines 772-868. Every
branch ends with exactly one `finished` emission and no escaping
exception (the body is guarded by `except Exception: pass`; the
missing-binary path emits `finished` at line 779 and returns). -/
def UpdateWorker.run (env : UpdEnv) : UpdResult :=
  match env.initialBinary with
  | none =>
    -- line 778-780: binary absent, finished.emit(), return
    { finishedCount := 1, escaped := false, binary := none, temp := none,
      versionQueried := false, networkRequests := 0, wroteTemp := false,
      statusEvents := [], progressStarted := false }
  | some old =>
    match env.versionQuery with
    | .error _ =>
      -- line 783 raised: outer except, finished
      { finishedCount := 1, escaped := false, binary := some old, temp := none,
        versionQueried := true, networkRequests := 0, wroteTemp := false,
        statusEvents := [], progressStarted := false }
    | .ok out =>
      match (pySplitWs (pyStrip out)).getLast? with
      | none =>
        -- line 784: output.split()[-1] on empty output raises IndexError
        { finishedCount := 1, escaped := false, binary := some old, temp := none,
          versionQueried := true, networkRequests := 0, wroteTemp := false,
          statusEvents := [], progressStarted := false }
      | some current_version =>
        match env.release with
        | .error _ =>
          -- lines 788-793 raised (network, timeout, JSON): outer except
          { finishedCount := 1, escaped := false, binary := some old, temp := none,
            versionQueried := true, networkRequests := 1, wroteTemp := false,
            statusEvents := [], progressStarted := false }
        | .ok data =>
          let latest_tag := lstripV data.tag_name
          if shouldUpdate latest_tag current_version then
            -- line 806: update_status.emit("Downloading spotDL update...")
            let url := chooseAsset env.arch latest_tag data.assets
            if url = "" then
              -- line 834: no asset selected, fall through to finished
              { finishedCount := 1, escaped := false, binary := some old,
                temp := none, versionQueried := true, networkRequests := 1,
                wroteTemp := false,
                statusEvents := ["Downloading spotDL update..."],
                progressStarted := false }
            else if env.connectOk then
              if env.downloadOk then
                -- temp file fully written with the new content
                if env.replaceOk then
                  -- line 854: atomic replace
                  { finishedCount := 1, escaped := false,
                    binary := some env.newContent, temp := none,
                    versionQueried := true, networkRequests := 2,
                    wroteTemp := true,
                    statusEvents := ["Downloading spotDL update..."],
                    progressStarted := true }
                else
                  -- lines 855-863: fallback remove-then-rename.
                  -- The binary exists here, so os.remove runs; its failure
                  -- is swallowed. os.rename then moves the temp file onto
                  -- the binary path; if it raises, the outer handler eats
                  -- the exception with the old binary already removed
                  -- whenever the remove succeeded.
                  if env.renameOk then
                    { finishedCount := 1, escaped := false,
                      binary := some env.newContent, temp := none,
                      versionQueried := true, networkRequests := 2,
                      wroteTemp := true,
                      statusEvents := ["Downloading spotDL update..."],
                      progressStarted := true }
                  else
                    { finishedCount := 1, escaped := false,
                      binary := if env.removeOk then none else some old,
                      temp := some env.newContent,
                      versionQueried := true, networkRequests := 2,
                      wroteTemp := true,
                      statusEvents := ["Downloading spotDL update..."],
                      progressStarted := true }
              else
                -- the read/write loop raised: partial temp file, outer except
                { finishedCount := 1, escaped := false, binary := some old,
                  temp := some env.partialContent, versionQueried := true,
                  networkRequests := 2, wroteTemp := true,
                  statusEvents := ["Downloading spotDL update..."],
                  progressStarted := true }
            else
              -- line 837 urlopen raised: outer except
              { finishedCount := 1, escaped := false, binary := some old,
                temp := none, versionQueried := true, networkRequests := 2,
                wroteTemp := false,
                statusEvents := ["Downloading spotDL update..."],
                progressStarted := true }
          else
            -- up to date (or empty tag): fall through to finished
            { finishedCount := 1, escaped := false, binary := some old,
              temp := none, versionQueried := true, networkRequests := 1,
              wroteTemp := false, statusEvents := [], progressStarted := false }

/-- Environment exhibiting the replacement-fallback failure window: the
binary exists and is out of date, a matching asset downloads fully, the
atomic `os.replace` fails, the fallback `os.remove` succeeds, and the
fallback `os.rename` then fails. -/
def updEnvCex : UpdEnv :=
  { initialBinary := some "oldspotdl"
    versionQuery := .ok "spotdl 1.0.0"
    release := .ok { tag_name := "v2.0.0",
                     assets := [⟨"spotdl-2.0.0-win64.exe", "u64"⟩] }
    arch := "AMD64"
    connectOk := true
    downloadOk := true
    newContent := "newspotdl"
    partialContent := ""
    replaceOk := false
    removeOk := true
    renameOk := false }

/-- A concrete history entry for witness statements. -/
def sampleEntry : HistoryEntry :=
  { timestamp := "2026-01-01 00:00:00", content := "Song", status := "Success",
    format := "mp3", quality := "320k", path := some "/music", error := none }

/-! ## Helper lemmas -/

/-- Python tuple comparison is a strict order: no tuple is below itself. -/
theorem tupleLt_irrefl (t : List Nat) : tupleLt t t = false := by
  induction t with
  | nil => rfl
  | cons a ta ih => simp [tupleLt, ih]

/-- The first-pass loop returns the URL of the first matching asset. -/
theorem firstPassLoop_eq_of_find (pref : List String) (assets : List Asset)
    (a : Asset) (h : assets.find? (firstPassPred pref) = some a) :
    firstPassLoop pref assets = a.browser_download_url := by
  induction assets with
  | nil => simp at h
  | cons b rest ih =>
    by_cases hb : firstPassPred pref b = true
    · rw [List.find?_cons_of_pos rest hb] at h
      injection h with h
      subst h
      simp [firstPassLoop, hb]
    · rw [List.find?_cons_of_neg rest hb] at h
      have hb' : firstPassPred pref b = false := by
        exact Bool.not_eq_true _ ▸ hb
      simp [firstPassLoop, hb']
      exact ih h

/-- The first-pass loop returns `""` when no asset matches. -/
theorem firstPassLoop_eq_of_find_none (pref : List String) (assets : List Asset)
    (h : assets.find? (firstPassPred pref) = none) :
    firstPassLoop pref assets = "" := by
  induction assets with
  | nil => rfl
  | cons b rest ih =>
    by_cases hb : firstPassPred pref b = true
    · rw [List.find?_cons_of_pos rest hb] at h
      exact absurd h (by simp)
    · rw [List.find?_cons_of_neg rest hb] at h
      have hb' : firstPassPred pref b = false := by
        exact Bool.not_eq_true _ ▸ hb
      simp [firstPassLoop, hb']
      exact ih h

/-- The legacy fallback loop returns `""` when no asset carries the legacy
name. -/
theorem legacyLoop_eq_of_find_none (legacy : String) (assets : List Asset)
    (h : assets.find? (fun a => a.name == legacy) = none) :
    legacyLoop legacy assets = "" := by
  induction assets with
  | nil => rfl
  | cons b rest ih =>
    by_cases hb : (b.name == legacy) = true
    · rw [List.find?_cons_of_pos rest hb] at h
      exact absurd h (by simp)
    · rw [List.find?_cons_of_neg rest hb] at h
      have hb' : (b.name == legacy) = false := by
        exact Bool.not_eq_true _ ▸ hb
      simp [legacyLoop, hb']
      exact ih h

/-! ## Claims -/

/-- C4: the version comparison parses each string component-wise into a
tuple of integers — non-numeric suffixes stripped per component, a
component whose number is missing becoming 0 — and compares
lexicographically, the remote tag winning only if strictly greater:
`version_tuple "1.2.3" = (1,2,3)`, `version_tuple "1.2.3-beta" = (1,2,3)`,
`version_tuple "2.0" > version_tuple "1.9.9"`, a dangling component parses
to 0, equal versions never trigger an update, and a triggered update
implies a non-empty tag that is strictly greater. -/
theorem c4_version_tuple_spec :
    version_tuple "1.2.3" = [1, 2, 3] ∧
    version_tuple "1.2.3-beta" = [1, 2, 3] ∧
    tupleLt (version_tuple "1.9.9") (version_tuple "2.0") = true ∧
    version_tuple "1.2." = [1, 2, 0] ∧
    (∀ v : String, shouldUpdate v v = false) ∧
    (∀ latest current : String, shouldUpdate latest current = true →
      latest ≠ "" ∧ tupleLt (version_tuple current) (version_tuple latest) = true) := by
  refine ⟨by decide, by decide, by decide, by decide, ?_, ?_⟩
  · intro v
    simp [shouldUpdate, tupleLt_irrefl]
  · intro latest current h
    simp only [shouldUpdate, Bool.and_eq_true, Bool.not_eq_true', beq_eq_false_iff_ne,
      ne_eq] at h
    exact ⟨h.1, h.2⟩

/-- Witness for C4: the strictly-greater direction applied at the spec
example pair, hypothesis discharged by evaluation. -/
theorem c4_version_tuple_spec_witness :
    "2.0" ≠ "" ∧ tupleLt (version_tuple "1.9.9") (version_tuple "2.0") = true :=
  c4_version_tuple_spec.2.2.2.2.2 "2.0" "1.9.9" (by decide)

/-- C7: inserting a new entry in front of a history of length 100 and
applying the cap drops exactly the oldest (last) entry, leaving length 100
with newest-first order preserved; for a history of length at most 100
the length after insertion never exceeds 100. -/
theorem c7_history_cap (h : List HistoryEntry) (e : HistoryEntry) :
    (h.length = 100 →
      add_to_history e h = e :: h.dropLast ∧ (add_to_history e h).length = 100) ∧
    (h.length ≤ 100 → (add_to_history e h).length ≤ 100) := by
  constructor
  · intro h100
    have hlen : (e :: h).length = 101 := by simp [h100]
    have hcond : 100 < (e :: h).length := by omega
    constructor
    · show (if 100 < (e :: h).length then (e :: h).take 100 else e :: h) = e :: h.dropLast
      rw [if_pos hcond, List.take_cons, List.dropLast_eq_take, h100]
      omega
    · show (if 100 < (e :: h).length then (e :: h).take 100 else e :: h).length = 100
      rw [if_pos hcond, List.length_take, hlen]
      omega
  · intro hle
    show (if 100 < (e :: h).length then (e :: h).take 100 else e :: h).length ≤ 100
    by_cases hc : 100 < (e :: h).length
    · rw [if_pos hc, List.length_take]
      omega
    · rw [if_neg hc]
      simp at hc
      simpa using hc

/-- Witness for C7: the theorem applied to a concrete history of exactly
100 entries. -/
theorem c7_history_cap_witness :
    add_to_history sampleEntry (List.replicate 100 sampleEntry) =
      sampleEntry :: (List.replicate 100 sampleEntry).dropLast ∧
    (add_to_history sampleEntry (List.replicate 100 sampleEntry)).length = 100 ∧
    (add_to_history sampleEntry (List.replicate 100 sampleEntry)).length ≤ 100 := by
  have h1 := (c7_history_cap (List.replicate 100 sampleEntry) sampleEntry).1 (by simp)
  have h2 := (c7_history_cap (List.replicate 100 sampleEntry) sampleEntry).2 (by simp)
  exact ⟨h1.1, h1.2, h2⟩

/-- C8: a line containing `"Downloading"` — even one that also contains a
`"Found <N> tracks"` pattern — takes the `if` branch: the current-track
counter is incremented, one progress event `(current+1, total)` is
emitted, and the total-track count is untouched; conversely the total-track
count only changes on a line that contains `"Found"` and does not contain
`"Downloading"` (the branches are mutually exclusive). -/
theorem c8_parse_branches :
    (∀ (st : LoopState) (line : String), containsSub line "Downloading" = true →
      (processLine st line).1.total_tracks = st.total_tracks ∧
      (processLine st line).1.current_track = st.current_track + 1 ∧
      (processLine st line).2.progress = [(st.current_track + 1, st.total_tracks)]) ∧
    (∀ (st : LoopState) (line : String),
      (processLine st line).1.total_tracks ≠ st.total_tracks →
      containsSub line "Found" = true ∧ containsSub line "Downloading" = false) := by
  constructor
  · intro st line hd
    simp [processLine, hd]
  · intro st line hne
    by_cases hd : containsSub line "Downloading" = true
    · exact absurd (by simp [processLine, hd]) hne
    · have hd' : containsSub line "Downloading" = false := Bool.not_eq_true _ ▸ hd
      by_cases hf : containsSub line "Found" = true
      · exact ⟨hf, hd'⟩
      · have hf' : containsSub line "Found" = false := Bool.not_eq_true _ ▸ hf
        exact absurd (by simp [processLine, hd', hf']) hne

/-- Witness for C8: both directions at concrete lines — a line carrying
both markers increments the counter without touching the total, and the
only line of a run that did change the total carries `"Found"` and not
`"Downloading"`. -/
theorem c8_parse_branches_witness :
    ((processLine ⟨1, 0, []⟩ "Downloading Found 2 tracks").1.total_tracks = 1 ∧
     (processLine ⟨1, 0, []⟩ "Downloading Found 2 tracks").1.current_track = 1 ∧
     (processLine ⟨1, 0, []⟩ "Downloading Found 2 tracks").2.progress = [(1, 1)]) ∧
    (containsSub "Found 5 tracks" "Found" = true ∧
     containsSub "Found 5 tracks" "Downloading" = false) :=
  ⟨c8_parse_branches.1 ⟨1, 0, []⟩ "Downloading Found 2 tracks" (by decide),
   c8_parse_branches.2 ⟨1, 0, []⟩ "Found 5 tracks" (by decide)⟩

/-- C3 counterexample: the claim "any total less than 1 (including
total = 0 set by a Found-0-tracks line) is treated as total = 1, and the
displayed percentage is always in [0,100]" is false on the code. A
`"Found 0 tracks"` line really does set the emitted total to 0, on which
the unguarded slot computation is a `ZeroDivisionError` (`none`), not the
treat-as-1 value `some 100`; and when the downloader prints more
`"Downloading"` lines than the announced total, the slot displays 133. -/
theorem c3_progress_unguarded_cex :
    (processLines initLoopState ["Found 0 tracks", "Downloading Song A"]).2.progress
      = [(1, 0)] ∧
    update_progress 1 0 = none ∧
    update_progress 1 0 ≠ some 100 ∧
    (processLines initLoopState
      ["Found 3 tracks", "Downloading A", "Downloading B", "Downloading C",
       "Downloading D"]).2.progress = [(1, 3), (2, 3), (3, 3), (4, 3)] ∧
    update_progress 4 3 = some 133 := by
  refine ⟨by decide, by decide, by decide, by decide, by decide⟩

/-- C3 amended: for every progress event `(current, total)`, when
`total ≥ 1` the displayed percentage equals `floor(current * 100 / total)`
and stays at most 100 as long as `current ≤ total`; the computation is not
guarded — a total of 0 (as set by a `"Found 0 tracks"` line) makes the
slot raise `ZeroDivisionError` instead of displaying anything. -/
theorem c3_progress_amended (current total : Nat) :
    (1 ≤ total → update_progress current total = some (current * 100 / total)) ∧
    (1 ≤ total → current ≤ total →
      ∀ p, update_progress current total = some p → p ≤ 100) ∧
    update_progress current 0 = none := by
  refine ⟨?_, ?_, ?_⟩
  · intro ht
    have : total ≠ 0 := by omega
    simp [update_progress, this]
  · intro ht hct p hp
    have htz : total ≠ 0 := by omega
    simp [update_progress, htz] at hp
    subst hp
    calc current * 100 / total ≤ total * 100 / total :=
          Nat.div_le_div_right (Nat.mul_le_mul_right 100 hct)
      _ = 100 := by
          rw [Nat.mul_comm]
          exact Nat.mul_div_cancel 100 (by omega)
  · simp [update_progress]

/-- Witness for C3: the amended statement applied at the events (2,3) and
(5,0). -/
theorem c3_progress_amended_witness :
    update_progress 2 3 = some 66 ∧ update_progress 5 0 = none := by
  have h := (c3_progress_amended 2 3).1 (by decide)
  exact ⟨by rw [h], (c3_progress_amended 5 0).2.2⟩

/-- C1 (failing input): on any non-empty URL, `DownloadWorker.run` raises
`NameError` at the `shutil.which` lookup of line 51 (`shutil` is never
imported), outside the `try` of line 97, so the claimed single terminal
outcome is never produced and the exception escapes the job. -/
theorem c1_run_nameerror_escapes :
    (DownloadWorker.run
      ⟨"https://open.spotify.com/track/abc", "/music", "320k", "mp3", true⟩
      ⟨"/app", "/base"⟩).outcomes = [] ∧
    (DownloadWorker.run
      ⟨"https://open.spotify.com/track/abc", "/music", "320k", "mp3", true⟩
      ⟨"/app", "/base"⟩).escaped = some "NameError: name shutil is not defined" := by
  refine ⟨by decide, by decide⟩

/-- C2 (failing input): that same escaping `NameError` fires after the
`chdir` of line 39 and before any restore, so the job leaves the process
in the requested output directory instead of the prior working
directory. -/
theorem c2_cwd_not_restored :
    (DownloadWorker.run
      ⟨"https://open.spotify.com/track/abc", "/music", "320k", "mp3", true⟩
      ⟨"/app", "/base"⟩).finalCwd = "/music" ∧
    ("/music" : String) ≠ "/app" := by
  refine ⟨by decide, by decide⟩

/-- C9: on the empty source URL the job emits exactly one failure outcome
`(False, "No URL provided", "", "")` and returns with the working
directory unchanged, no executable resolution attempted, no process
spawned, and no escaping exception. -/
theorem c9_empty_url (p q f : String) (a : Bool) (env : WorkerEnv) :
    (DownloadWorker.run ⟨"", p, q, f, a⟩ env).outcomes
      = [⟨false, "No URL provided", "", ""⟩] ∧
    (DownloadWorker.run ⟨"", p, q, f, a⟩ env).finalCwd = env.cwd ∧
    (DownloadWorker.run ⟨"", p, q, f, a⟩ env).resolvedExecutables = false ∧
    (DownloadWorker.run ⟨"", p, q, f, a⟩ env).spawned = false ∧
    (DownloadWorker.run ⟨"", p, q, f, a⟩ env).escaped = none :=
  ⟨rfl, rfl, rfl, rfl, rfl⟩

/-- C5 counterexample: the claim "a failure at any stage ... leaves the
existing downloader binary untouched on disk" is false on the code. In the
replacement stage, when `os.replace` fails, the fallback `os.remove`
succeeds and the fallback `os.rename` then fails, the run still ends
silently in Done — but the old binary has been deleted from disk. -/
theorem c5_update_fallback_deletes_cex :
    (UpdateWorker.run updEnvCex).finishedCount = 1 ∧
    (UpdateWorker.run updEnvCex).escaped = false ∧
    updEnvCex.initialBinary = some "oldspotdl" ∧
    (UpdateWorker.run updEnvCex).binary = none := by
  refine ⟨by decide, by decide, by decide, by decide⟩

/-- C5 amended: for every run of the Update Job, a failure at any stage
transitions silently to Done (exactly one `finished` emission, no error
propagated), and the existing binary is left untouched on every failure
path except one: when the atomic replace fails, the fallback remove
succeeds and the fallback rename then fails, the old binary has been
deleted. (The binary otherwise only changes through a completed
replacement with the downloaded content.) -/
theorem c5_update_silent_amended (env : UpdEnv) :
    (UpdateWorker.run env).finishedCount = 1 ∧
    (UpdateWorker.run env).escaped = false ∧
    ((UpdateWorker.run env).binary = env.initialBinary ∨
     ((UpdateWorker.run env).binary = some env.newContent ∧
       (env.replaceOk = true ∨ env.renameOk = true)) ∨
     ((UpdateWorker.run env).binary = none ∧ env.initialBinary.isSome = true ∧
       env.replaceOk = false ∧ env.removeOk = true ∧ env.renameOk = false)) := by
  unfold UpdateWorker.run
  rcases hbin : env.initialBinary with _ | old
  · simp [hbin]
  · simp only [hbin]
    rcases hq : env.versionQuery with e | out
    · simp [hbin]
    · simp only [hq]
      rcases hlast : (pySplitWs (pyStrip out)).getLast? with _ | current_version
      · simp [hbin]
      · rcases hrel : env.release with e | data
        · simp [hbin]
        · simp only [hrel]
          by_cases hupd : shouldUpdate (lstripV data.tag_name) current_version = true
          · simp only [hupd, if_true]
            by_cases hurl : chooseAsset env.arch (lstripV data.tag_name) data.assets = ""
            · simp [hurl, hbin]
            · simp only [hurl, if_false]
              by_cases hconn : env.connectOk = true
              · simp only [hconn, if_true]
                by_cases hdl : env.downloadOk = true
                · simp only [hdl, if_true]
                  by_cases hrep : env.replaceOk = true
                  · simp [hrep]
                  · have hrep' : env.replaceOk = false := Bool.not_eq_true _ ▸ hrep
                    simp only [hrep', Bool.false_eq_true, if_false]
                    by_cases hren : env.renameOk = true
                    · simp [hren]
                    · have hren' : env.renameOk = false := Bool.not_eq_true _ ▸ hren
                      simp only [hren', Bool.false_eq_true, if_false]
                      by_cases hrem : env.removeOk = true
                      · simp [hrem, hrep', hren', hbin]
                      · have hrem' : env.removeOk = false := Bool.not_eq_true _ ▸ hrem
                        simp [hrem', hbin]
                · have hdl' : env.downloadOk = false := Bool.not_eq_true _ ▸ hdl
                  simp [hdl', hbin]
              · have hconn' : env.connectOk = false := Bool.not_eq_true _ ▸ hconn
                simp [hconn', hbin]
          · have hupd' : shouldUpdate (lstripV data.tag_name) current_version = false :=
              Bool.not_eq_true _ ▸ hupd
            simp [hupd', hbin]

/-- C6: asset selection tries the architecture-token pass first (first
match wins, requiring the `.exe` suffix, the tool name, the `win` platform
marker and a preferred token), then falls back to the exact legacy name,
and otherwise selects nothing so the update aborts; on the spec example —
assets `spotdl-1.2.3-win32.exe` and `spotdl-1.2.3-win64.exe` with host
arch `amd64` — it picks the `win64` asset. -/
theorem c6_asset_selection :
    (∀ (arch tag : String) (assets : List Asset) (a : Asset),
      assets.find? (firstPassPred (preferredTokens (pyLower arch))) = some a →
      a.browser_download_url ≠ "" →
      chooseAsset arch tag assets = a.browser_download_url) ∧
    (∀ (arch tag : String) (assets : List Asset),
      assets.find? (firstPassPred (preferredTokens (pyLower arch))) = none →
      chooseAsset arch tag assets = legacyLoop (legacyName tag) assets) ∧
    (∀ (arch tag : String) (assets : List Asset),
      assets.find? (firstPassPred (preferredTokens (pyLower arch))) = none →
      assets.find? (fun a => a.name == legacyName tag) = none →
      chooseAsset arch tag assets = "") ∧
    chooseAsset "amd64" "1.2.3"
      [⟨"spotdl-1.2.3-win32.exe", "u32"⟩, ⟨"spotdl-1.2.3-win64.exe", "u64"⟩]
      = "u64" := by
  refine ⟨?_, ?_, ?_, by decide⟩
  · intro arch tag assets a hfind hurl
    have h1 := firstPassLoop_eq_of_find (preferredTokens (pyLower arch)) assets a hfind
    simp [chooseAsset, h1, hurl]
  · intro arch tag assets hfind
    have h1 := firstPassLoop_eq_of_find_none (preferredTokens (pyLower arch)) assets hfind
    simp [chooseAsset, h1]
  · intro arch tag assets hfind hleg
    have h1 := firstPassLoop_eq_of_find_none (preferredTokens (pyLower arch)) assets hfind
    have h2 := legacyLoop_eq_of_find_none (legacyName tag) assets hleg
    simp [chooseAsset, h1, h2]

/-- Witness for C6: the first-pass direction applied at the spec example
(with a tag whose legacy name matches neither asset, so the token pass
alone decides), and the abort direction applied at an empty asset list. -/
theorem c6_asset_selection_witness :
    chooseAsset "amd64" "9.9.9"
      [⟨"spotdl-1.2.3-win32.exe", "u32"⟩, ⟨"spotdl-1.2.3-win64.exe", "u64"⟩]
      = "u64" ∧
    chooseAsset "arm64" "1.0.0" [] = "" :=
  ⟨c6_asset_selection.1 "amd64" "9.9.9"
      [⟨"spotdl-1.2.3-win32.exe", "u32"⟩, ⟨"spotdl-1.2.3-win64.exe", "u64"⟩]
      ⟨"spotdl-1.2.3-win64.exe", "u64"⟩ (by decide) (by decide),
   c6_asset_selection.2.2.1 "arm64" "1.0.0" [] (by decide) (by decide)⟩

/-- C10: when the downloader binary does not exist at the base directory,
`UpdateWorker.run` emits its completion signal exactly once, immediately —
no version query, no network request, no filesystem write, no status or
progress activity — and no binary is installed. -/
theorem c10_update_missing_binary (env : UpdEnv) :
    UpdateWorker.run { env with initialBinary := none } =
      { finishedCount := 1, escaped := false, binary := none, temp := none,
        versionQueried := false, networkRequests := 0, wroteTemp := false,
        statusEvents := [], progressStarted := false } :=
  rfl

end SpotifyDL
